import Mathlib

/- Shallow embedding of the autograd core of this repository: the
snapshot-guard mechanism of `torch/csrc/autograd/saved_variable.cpp`, the
staged interpreter of `torch/csrc/jit/interpreter_autograd_function.cpp`,
and the grouped convolution forward/backward of
`torch/csrc/autograd/functions/convolution.cpp`.

Modelling conventions:
- machine pointers/identities are `Nat` identifiers; a `shared_ptr` that can
  be null is `Option Nat`; a `weak_ptr`'s current liveness is supplied as an
  environment function `alive : Nat -> Bool` at the point of the `expired()`
  call, since expiry is decided by the surrounding object graph, not by the
  guard itself;
- the shared version counter of a variable is modelled by passing the
  counter's current value (`live_version`) to `unpack`; `is_modified()`
  compares it with the saved `expected_version`, exactly as
  `SavedVersion::is_modified` does;
- fallible code returns `Except`;
- the tracing-state plumbing of `SavedVariable` (an external subsystem, out
  of scope per the spec) is omitted. -/

namespace Torch

/-- One differentiable value (`torch::autograd::Variable`), as described by
the spec's data model: data reference, `requires_grad`, version, producing
node and output slot, and the (weak) gradient accumulator for leaves.
`data` is an abstract buffer identifier. -/
structure Variable where
  defined : Bool
  data : Nat
  requires_grad : Bool
  current_version : Nat
  output_nr : Nat
  grad_fn : Option Nat
  grad_accumulator : Option Nat
deriving DecidableEq, Repr

/-- A default-constructed `Variable()` (undefined). -/
def undefinedVariable : Variable :=
  { defined := false, data := 0, requires_grad := false, current_version := 0,
    output_nr := 0, grad_fn := none, grad_accumulator := none }

/-- `Variable::is_leaf`: true iff the value has no producing node
(spec data model: exactly one of producing-node-defined / is-leaf holds). -/
def Variable.is_leaf (v : Variable) : Bool := v.grad_fn.isNone

/-- Errors thrown by `SavedVariable::unpack` (`saved_variable.cpp`). -/
inductive UnpackError where
  | reusedAfterRelease
  | staleVersion
  | missingProducer
  | missingAccumulator
deriving DecidableEq, Repr

/-- `ERR_BACKWARD_TWICE` from `saved_variable.cpp`. -/
def ERR_BACKWARD_TWICE : String :=
  "Trying to backward through the graph a second time, but the buffers have already been freed. Specify retain_graph=True when calling backward the first time."

/-- The exact message each `unpack` error is thrown with in the source. -/
def UnpackError.message : UnpackError → String
  | .reusedAfterRelease => ERR_BACKWARD_TWICE
  | .staleVersion => "one of the variables needed for gradient computation has been modified by an inplace operation"
  | .missingProducer => "No grad_fn for non-leaf saved variable"
  | .missingAccumulator => "No grad accumulator for a saved leaf!"

/-- The snapshot guard (`torch::autograd::SavedVariable`): the fields stored
by the constructor in `saved_variable.cpp`. `version_defined` models
`version.defined()` (a saved version counter is present); `grad_fn` models
`_grad_fn`; `grad_accumulator` is the weak reference's target (none for an
empty `weak_ptr`, which is always expired). The default values are those of
a default-constructed guard (empty guard). -/
structure SavedVariable where
  data : Option Nat := none
  requires_grad : Bool := false
  expected_version : Nat := 0
  version_defined : Bool := false
  has_grad_fn : Bool := false
  output_nr : Nat := 0
  grad_fn : Option Nat := none
  grad_accumulator : Option Nat := none
deriving DecidableEq, Repr

/-- `SavedVariable::SavedVariable(const Variable&, bool is_output)`:
no-op (empty guard) for an undefined variable; otherwise records data,
flags, version, and — only when the variable is a leaf — the grad
accumulator, and — only when `is_output` is false — the producing node. -/
def SavedVariable.save (v : Variable) (is_output : Bool) : SavedVariable :=
  if !v.defined then {} else
  { data := some v.data,
    requires_grad := v.requires_grad,
    expected_version := v.current_version,
    version_defined := true,
    has_grad_fn := !v.is_leaf,
    output_nr := v.output_nr,
    grad_fn := if !is_output then v.grad_fn else none,
    grad_accumulator := if !(!v.is_leaf) then v.grad_accumulator else none }

/-- Whether the saved weak reference to the grad accumulator is expired,
given the current liveness environment. An unset `weak_ptr` is expired. -/
def SavedVariable.expired (sv : SavedVariable) (alive : Nat → Bool) : Bool :=
  match sv.grad_accumulator with
  | none => true
  | some a => !alive a

/-- The `grad_fn` resolution step of `unpack`: if the guard expected a
producing node (`has_grad_fn`) but stored none, the caller must supply
`saved_for`; otherwise the stored reference is used. -/
def SavedVariable.resolveGradFn (sv : SavedVariable) (saved_for : Option Nat) :
    Except UnpackError (Option Nat) :=
  if sv.has_grad_fn ∧ sv.grad_fn = none then
    match saved_for with
    | none => .error .missingProducer
    | some n => .ok (some n)
  else .ok sv.grad_fn

/-- `SavedVariable::unpack(saved_for)` from `saved_variable.cpp`.
`live_version` is the current value of the saved (shared) version counter;
`alive` gives the current liveness of weak references. The reconstructed
variable is built by `make_variable(data, output_nr, grad_fn)` (non-leaf)
or `make_variable(data, requires_grad)` (fresh leaf); its version counter
is the shared saved counter (current value `live_version`), and its grad
accumulator is the saved weak reference. -/
def SavedVariable.unpack (sv : SavedVariable) (saved_for : Option Nat)
    (live_version : Nat) (alive : Nat → Bool) : Except UnpackError Variable :=
  match sv.data with
  | none =>
      if sv.version_defined then .error .reusedAfterRelease
      else .ok undefinedVariable
  | some d =>
      if live_version ≠ sv.expected_version then .error .staleVersion
      else
        match sv.resolveGradFn saved_for with
        | .error e => .error e
        | .ok gf =>
          let var : Variable :=
            match gf with
            | some n =>
                { defined := true, data := d, requires_grad := sv.requires_grad,
                  current_version := live_version, output_nr := sv.output_nr,
                  grad_fn := some n, grad_accumulator := none }
            | none =>
                { defined := true, data := d, requires_grad := sv.requires_grad,
                  current_version := live_version, output_nr := 0,
                  grad_fn := none, grad_accumulator := none }
          if sv.requires_grad ∧ var.grad_fn = none ∧ sv.expired alive then
            .error .missingAccumulator
          else .ok { var with grad_accumulator := sv.grad_accumulator }

/- ===== Staged interpreter (`torch/csrc/jit/interpreter_autograd_function.cpp`) ===== -/

/-- Defined/requires-grad flags of a variable, as read by the staged
interpreter's input validation (`VariableFlags::of(inputs[i])`). -/
structure VariableFlags where
  defined : Bool
  requires_grad : Bool
deriving DecidableEq, Repr

/-- Flags of a live variable. -/
def VariableFlags.of (v : Variable) : VariableFlags :=
  { defined := v.defined, requires_grad := v.requires_grad }

/-- Per-stage metadata (`struct StageDetails` of the interpreter header):
input/output flags recorded at trace time, which inputs are used, and which
`next_functions` edges must be copied forward from the previous stage. -/
structure StageDetails where
  input_flags : List VariableFlags
  output_flags : List VariableFlags
  used_inputs : List Bool
  copied_next_fns : List Nat
deriving DecidableEq, Repr

instance : Inhabited StageDetails := ⟨⟨[], [], [], []⟩⟩

/-- An autograd edge: `none` is a null edge (`emplace_back()`); otherwise
the target function-or-accumulator (a possibly-null shared pointer) and the
output slot number. -/
abbrev Edge := Option (Option Nat × Nat)

/-- Errors thrown by `InterpreterAutogradFunction::apply`. The two
stage-mismatch constructors are the spec's `StageMismatchError`;
`backwardTwice` is thrown with `ERR_BACKWARD_TWICE`; `assertFailed` models
`TORCH_ASSERT`/`JIT_ASSERT` failures. -/
inductive InterpError where
  | tooFewDerivatives (n : Nat)
  | backwardTwice
  | stageMismatchDefined
  | stageMismatchRequiresGrad
  | assertFailed
  | invalidStage
deriving DecidableEq, Repr

/-- The message each interpreter error is thrown with in the source. -/
def InterpError.message : InterpError → String
  | .tooFewDerivatives n => "Function compiled only for " ++ toString n ++ " derivatives. Use nderivs argument to request more."
  | .backwardTwice => ERR_BACKWARD_TWICE
  | .stageMismatchDefined => "JIT intepreter received a defined input, but the trace was compiled with the input being undefined."
  | .stageMismatchRequiresGrad => "JIT inteperpreter recieved an input with  requires_grad=True, but was compiled with requires_grad=False"
  | .assertFailed => "assert failed"
  | .invalidStage => "invalid stage"

/-- One interpreter input tensor after validation: the undefined tensor, a
zero-filled tensor of the traced shape (`zeroTensorWithType`), or the live
input's data buffer, passed through unchanged. -/
inductive TInput where
  | undef
  | zeros (shape : List Nat)
  | tdata (d : Nat)
deriving DecidableEq, Repr

/-- `InterpreterAutogradFunction`: stage index, per-stage details, the
`keep_graph_`/`used_` single-use flags, declared input arity, wired
`next_functions`, and the traced input shapes
(`interp_.tensorTypeForInput(i).sizes()`). -/
structure InterpreterAutogradFunction where
  stage_ : Nat
  stage_details_ : List StageDetails
  keep_graph_ : Bool
  used_ : Bool
  num_inputs : Nat
  next_functions : List Edge
  input_types : List (List Nat)
deriving DecidableEq, Repr

/-- The bare next-stage node built by `make_grad_fn`:
`InterpreterAutogradFunction(std::move(interp), stage_details_, stage_ + 1)`
— same program and details, stage one higher, fresh single-use state, and
no wired edges yet. -/
def InterpreterAutogradFunction.mkNextStage (f : InterpreterAutogradFunction) :
    InterpreterAutogradFunction :=
  { f with stage_ := f.stage_ + 1, used_ := false, next_functions := [],
           num_inputs := ((f.stage_details_.get? (f.stage_ + 1)).map
             (fun d => d.input_flags.length)).getD 0 }

/-- The per-input edge decision of `make_grad_fn`'s second loop: skip unused
inputs and inputs traced as not requiring grad; wire a null edge for a live
input that is undefined or does not require grad; otherwise wire to the
input's `grad_fn` (or, failing that, its `grad_accumulator`) at its
`output_nr`. `none` means no entry is appended at all. -/
def wireInputEdge (used : Bool) (traced : VariableFlags) (v : Variable) :
    Option Edge :=
  if !used then none
  else if !traced.requires_grad then none
  else if !v.defined || !v.requires_grad then some none
  else some (some ((match v.grad_fn with
                    | some g => some g
                    | none => v.grad_accumulator), v.output_nr))

/-- `make_grad_fn` of `InterpreterAutogradFunction::apply`: builds the node
for stage `stage_ + 1`. If that stage was never compiled
(`stage_ + 1 == stage_details_.size()`) it returns early — the node exists
but is deliberately left unwired, and no error is raised here. Otherwise it
copies the previous stage's designated `next_functions` entries and then
wires one edge per used, grad-requiring traced input. -/
def InterpreterAutogradFunction.makeGradFn (f : InterpreterAutogradFunction)
    (details : StageDetails) (inputs : List Variable) :
    InterpreterAutogradFunction :=
  let g0 := f.mkNextStage
  if f.stage_ + 1 = f.stage_details_.length then g0
  else
    let copied := ((f.stage_details_.get? (f.stage_ + 1)).getD default).copied_next_fns.map
      (fun idx => f.next_functions.getD idx none)
    let wired := (details.input_flags.zip (details.used_inputs.zip inputs)).filterMap
      (fun x => wireInputEdge x.2.1 x.1 x.2.2)
    { g0 with next_functions := copied ++ wired }

/-- Validation of one interpreter input against its traced flags
(`apply`'s input loop): a defined live input against an undefined traced
input, or a grad-requiring live input against a non-grad traced input, is a
stage mismatch; an undefined live input where the trace expects a defined
one becomes a zero tensor of the traced shape; an undefined input where the
trace also saw undefined stays undefined; otherwise the live data is used. -/
def validateOne (traced actual : VariableFlags) (tracedShape : List Nat)
    (dataVal : Nat) : Except InterpError TInput :=
  if !traced.defined && actual.defined then .error .stageMismatchDefined
  else if !traced.requires_grad && actual.requires_grad then
    .error .stageMismatchRequiresGrad
  else if !actual.defined then
    if traced.defined then .ok (.zeros tracedShape) else .ok .undef
  else .ok (.tdata dataVal)

/-- The whole validation loop of `apply`, producing the interpreter's
tensor inputs `tinputs` in order (the i-th traced shape comes from
`interp_.tensorTypeForInput(i)`). -/
def validateInputs : List VariableFlags → List (List Nat) → List Variable →
    Except InterpError (List TInput)
  | [], _, [] => .ok []
  | tf :: flags, shapes, v :: vs =>
      match validateOne tf (VariableFlags.of v) (shapes.headD []) v.data with
      | .error e => .error e
      | .ok t =>
          match validateInputs flags shapes.tail vs with
          | .error e => .error e
          | .ok rest => .ok (t :: rest)
  | _, _, _ => .error .assertFailed

/-- The value returned by a successful `apply`: the validated tensor
inputs, the wrapped outputs (data paired with whether the output was bound
to the next-stage `grad_fn`), the lazily constructed next-stage node if any
output requires grad, and the function's own state after the `used_`
update. -/
structure InterpApplyResult where
  tinputs : List TInput
  outputs : List (Nat × Bool)
  grad_fn : Option InterpreterAutogradFunction
  post : InterpreterAutogradFunction
deriving DecidableEq, Repr

/-- `InterpreterAutogradFunction::apply`. `run` is the underlying traced
program (`interp.runOneStage`), abstract here. Order of checks follows the
source: the compiled-stage bound first, then the single-use `used_` check
(after which `used_ |= !keep_graph_`), arity assertions, per-input
validation, the program run, the output-arity assertion, and output
wrapping with a lazily built next-stage `grad_fn` shared by all
grad-requiring outputs. -/
def InterpreterAutogradFunction.apply (run : List TInput → List Nat)
    (f : InterpreterAutogradFunction) (inputs : List Variable) :
    Except InterpError InterpApplyResult :=
  if f.stage_ = f.stage_details_.length then
    .error (.tooFewDerivatives (f.stage_details_.length - 1))
  else if f.used_ then .error .backwardTwice
  else
    let f' := { f with used_ := f.used_ || !f.keep_graph_ }
    match f.stage_details_.get? f.stage_ with
    | none => .error .invalidStage
    | some details =>
      if inputs.length ≠ f.num_inputs then .error .assertFailed
      else if inputs.length ≠ details.input_flags.length then .error .assertFailed
      else
        match validateInputs details.input_flags f.input_types inputs with
        | .error e => .error e
        | .ok tinputs =>
          let toutputs := run tinputs
          if toutputs.length ≠ details.output_flags.length then .error .assertFailed
          else
            let anyGrad := details.output_flags.any (fun fl => fl.requires_grad)
            let grad_fn : Option InterpreterAutogradFunction :=
              if anyGrad then some (f'.makeGradFn details inputs) else none
            let outputs := toutputs.zipWith
              (fun t fl => (t, fl.requires_grad)) details.output_flags
            .ok { tinputs := tinputs, outputs := outputs, grad_fn := grad_fn,
                  post := f' }

/- ===== Grouped convolution (`torch/csrc/autograd/functions/convolution.cpp`) =====

The model covers the build without CUDA/cuDNN/NNPACK: `is_depthwise`
requires a CUDA input, and the `use_cudnn`/`use_nnpack` branches are
compiled out (`WITH_CUDNN`/`WITH_NNPACK` undefined), so the executed paths
are the `groups == 1` fast path and the per-group fan-out. The external
numeric kernels (`at::conv*_forward/_backward`, reached through
`compute_output`/`compute_backward`) are parameters of the model; they
receive exactly the parameter fields those functions read — note that
neither reads `params.groups`. The scratch `columns`/`ones` buffers passed
to the kernels are allocation details and are omitted. -/

/-- A concrete dense tensor: row-major data with its shape. -/
structure TData where
  shape : List Nat
  data : List Int
deriving DecidableEq, Repr

/-- An `at::Tensor`, which may be undefined. -/
abbrev ATTensor := Option TData

/-- `tensor.sizes()[d]`. -/
def TData.sizeAt (t : TData) (d : Nat) : Nat := t.shape.getD d 0

/-- `tensor.narrow(dim, start, len)` (made contiguous): keeps, for every
index of the outer dimensions, the `[start, start+len)` slice of dimension
`dim`. -/
def TData.narrow (t : TData) (dim start len : Nat) : TData :=
  let outer := (t.shape.take dim).prod
  let mid := t.shape.getD dim 0
  let inner := (t.shape.drop (dim + 1)).prod
  { shape := t.shape.set dim len,
    data := (List.range outer).flatMap (fun o =>
      (((t.data.drop (o * (mid * inner))).take (mid * inner)).drop
        (start * inner)).take (len * inner)) }

/-- The `g`-th of `groups` slices along `dim`
(`subtensor` of `convolution.cpp`, defined-tensor case):
`narrow(dim, n*g, n)` with `n = sizes[dim] / groups`. -/
def TData.subtensorT (t : TData) (dim groups g : Nat) : TData :=
  let n := t.sizeAt dim / groups
  t.narrow dim (n * g) n

/-- `subtensor` of `convolution.cpp`: undefined tensors slice to undefined. -/
def subtensor (t : ATTensor) (dim groups g : Nat) : ATTensor :=
  t.map (fun td => td.subtensorT dim groups g)

/-- The static `cat` of `convolution.cpp`: the empty list yields an
undefined tensor, otherwise `at::cat_out` along `dim` — for every index of
the outer dimensions, the blocks of all tensors are laid out in list
order. -/
def cat (tensors : List TData) (dim : Nat) : ATTensor :=
  match tensors with
  | [] => none
  | t0 :: _ =>
    let outer := (t0.shape.take dim).prod
    let inner := (t0.shape.drop (dim + 1)).prod
    let midsum := (tensors.map (fun t => t.shape.getD dim 0)).sum
    some { shape := t0.shape.set dim midsum,
           data := (List.range outer).flatMap (fun o =>
             tensors.flatMap (fun t =>
               let mid := t.shape.getD dim 0
               ((t.data.drop (o * (mid * inner))).take (mid * inner)))) }

/-- `cat` over possibly-undefined tensors: undefined if any entry is
(concatenating an undefined `at::Tensor` is a precondition violation in the
source). -/
def catOpt (tensors : List ATTensor) (dim : Nat) : ATTensor :=
  match tensors.mapM id with
  | none => none
  | some ts => cat ts dim

/-- `ConvParams` (stride/padding/dilation use C `int`, hence `Int`). The
`benchmark`/`deterministic`/`cudnn_enabled` knobs only steer the
compiled-out cuDNN path and are omitted. -/
structure ConvParams where
  stride : List Int
  padding : List Int
  dilation : List Int
  transposed : Bool
  output_padding : List Int
  groups : Nat
deriving DecidableEq, Repr

/-- `ConvParams::is_padding_neg`. -/
def ConvParams.is_padding_neg (p : ConvParams) : Bool :=
  p.padding.any (fun x => x < 0)

/-- `ConvParams::is_output_padding_neg`. -/
def ConvParams.is_output_padding_neg (p : ConvParams) : Bool :=
  p.output_padding.any (fun x => x < 0)

/-- `ConvParams::view1d_as_2d`: promote 1-d parameter lists to 2-d. -/
def ConvParams.view1d_as_2d (p : ConvParams) : ConvParams :=
  if p.stride.length = 1 then
    { p with stride := 1 :: p.stride, padding := 0 :: p.padding,
             dilation := 1 :: p.dilation,
             output_padding := 0 :: p.output_padding }
  else p

/-- The parameter fields `compute_output`/`compute_backward` actually read
when dispatching to the numeric library. `groups` is deliberately absent:
neither function reads it. -/
structure KernelArgs where
  stride : List Int
  padding : List Int
  dilation : List Int
  transposed : Bool
  output_padding : List Int
deriving DecidableEq, Repr

/-- Projection of `ConvParams` onto the kernel-visible fields. -/
def ConvParams.kargs (p : ConvParams) : KernelArgs :=
  { stride := p.stride, padding := p.padding, dilation := p.dilation,
    transposed := p.transposed, output_padding := p.output_padding }

/-- The external forward kernel: given the kernel-visible parameters,
input, weight and optional bias, produce the output tensor
(`at::conv*_forward`, dispatched by `compute_output`). -/
abbrev ForwardKernel := KernelArgs → TData → TData → ATTensor → TData

/-- The external backward kernel: given the kernel-visible parameters,
input, grad_output, weight and the output mask, produce
(grad_input, grad_weight, grad_bias) (`at::conv*_backward`, dispatched by
`compute_backward`). -/
abbrev BackwardKernel :=
  KernelArgs → TData → TData → TData → Bool × Bool × Bool →
    ATTensor × ATTensor × ATTensor

/-- `compute_output` of `convolution.cpp`: pure dispatch to the external
numeric library on the kernel-visible parameter fields. -/
def compute_output (kernelF : ForwardKernel) (p : ConvParams)
    (input weight : TData) (bias : ATTensor) : TData :=
  kernelF p.kargs input weight bias

/-- `compute_backward` of `convolution.cpp`: pure dispatch to the external
numeric library on the kernel-visible parameter fields and the output
mask. -/
def compute_backward (kernelB : BackwardKernel) (p : ConvParams)
    (input grad_output weight : TData) (mask : Bool × Bool × Bool) :
    ATTensor × ATTensor × ATTensor :=
  kernelB p.kargs input grad_output weight mask

/-- Errors of the convolution apply paths (each carries the fixed message
thrown at the corresponding `throw` site). -/
inductive ConvError where
  | negativePadding
  | negativeOutputPadding
  | weightDimMismatch
  | weightGroupsMismatch
  | channelsMismatch
  | biasShapeMismatch
  | expected3d
  | expected4d
deriving DecidableEq, Repr

/-- `check_input_shape_forward` of `convolution.cpp`. -/
def check_input_shape_forward (input weight : TData) (bias : ATTensor)
    (groups : Nat) (transposed : Bool) : Option ConvError :=
  let k := input.shape.length
  if weight.shape.length ≠ k then some .weightDimMismatch
  else if weight.sizeAt 0 < groups then some .weightGroupsMismatch
  else if !transposed then
    if input.sizeAt 1 ≠ weight.sizeAt 1 * groups then some .channelsMismatch
    else match bias with
      | some b =>
          if b.shape.length ≠ 1 ∨ b.sizeAt 0 ≠ weight.sizeAt 0 then
            some .biasShapeMismatch
          else none
      | none => none
  else
    if input.sizeAt 1 ≠ weight.sizeAt 0 then some .channelsMismatch
    else match bias with
      | some b =>
          if b.shape.length ≠ 1 ∨ b.sizeAt 0 ≠ weight.sizeAt 1 * groups then
            some .biasShapeMismatch
          else none
      | none => none

/-- `view4d`: `unsqueeze(2)` of a 3-d tensor. -/
def view4d (t : TData) : Except ConvError TData :=
  if t.shape.length ≠ 3 then .error .expected3d
  else .ok { shape := t.shape.take 2 ++ 1 :: t.shape.drop 2, data := t.data }

/-- `view3d`: `squeeze(2)` of a 4-d tensor. -/
def view3d (t : TData) : Except ConvError TData :=
  if t.shape.length ≠ 4 then .error .expected4d
  else .ok { shape := t.shape.take 2 ++ t.shape.drop 3, data := t.data }

/-- `view3d` applied to a possibly-undefined gradient, as the backward does
with `if (grad_input.defined()) grad_input = view3d(grad_input)`. -/
def view3dOpt : ATTensor → Except ConvError ATTensor
  | none => .ok none
  | some t => (view3d t).map some

/-- The group dispatch of `ConvForward::apply`: `groups == 1` calls
`compute_output` once on the whole tensors (no fan-out, no merge);
otherwise group `g` of `groups` runs on the `g`-th channel slice of input
(dim 1), weight (dim 0) and bias (dim 0), and the per-group outputs are
concatenated along dim 1 in group order. -/
def convForwardGroups (kernelF : ForwardKernel) (p : ConvParams)
    (input weight : TData) (bias : ATTensor) : ATTensor :=
  if p.groups = 1 then some (compute_output kernelF p input weight bias)
  else
    cat ((List.range p.groups).map (fun g =>
      compute_output kernelF p
        (input.subtensorT 1 p.groups g)
        (weight.subtensorT 0 p.groups g)
        (subtensor bias 0 p.groups g))) 1

/-- The tensor-level core of `ConvForward::apply` (CPU build): padding
checks, `check_input_shape_forward`, 3-d viewing, then the group
dispatch. -/
def ConvForward.applyCore (kernelF : ForwardKernel) (p : ConvParams)
    (input weight : TData) (bias : ATTensor) : Except ConvError ATTensor :=
  if p.is_padding_neg then .error .negativePadding
  else if p.is_output_padding_neg then .error .negativeOutputPadding
  else match check_input_shape_forward input weight bias p.groups p.transposed with
    | some e => .error e
    | none =>
      if input.shape.length = 3 then
        match view4d input, view4d weight with
        | .ok i4, .ok w4 =>
            match convForwardGroups kernelF p.view1d_as_2d i4 w4 bias with
            | some t => (view3d t).map (fun t3 => some t3)
            | none => .ok none
        | .error e, _ => .error e
        | _, .error e => .error e
      else .ok (convForwardGroups kernelF p input weight bias)

/-- The group dispatch of `ConvBackward::apply`: `groups == 1` is a single
`compute_backward` call; otherwise each group runs `compute_backward` on
the channel slices (input and grad_output along dim 1, weight along dim 0)
with the same output mask, and each requested gradient is concatenated in
group order — grad_input along dim 1, grad_weight and grad_bias along
dim 0. A gradient whose mask bit is false is never assigned. -/
def convBackwardGroups (kernelB : BackwardKernel) (p : ConvParams)
    (input grad_output weight : TData) (mask : Bool × Bool × Bool) :
    ATTensor × ATTensor × ATTensor :=
  if p.groups = 1 then
    compute_backward kernelB p input grad_output weight mask
  else
    let per := (List.range p.groups).map (fun g =>
      compute_backward kernelB p
        (input.subtensorT 1 p.groups g)
        (grad_output.subtensorT 1 p.groups g)
        (weight.subtensorT 0 p.groups g) mask)
    ((if mask.1 then catOpt (per.map (fun t => t.1)) 1 else none),
     (if mask.2.1 then catOpt (per.map (fun t => t.2.1)) 0 else none),
     (if mask.2.2 then catOpt (per.map (fun t => t.2.2)) 0 else none))

/-- The tensor-level core of `ConvBackward::apply` (CPU build), after its
saved variables have been unpacked: padding checks, 3-d viewing, the
effective output mask — the caller's three requested bits
(`should_compute_output(i)`), with the bias bit additionally requiring the
saved bias to be defined — then the group dispatch, and 3-d un-viewing of
the defined input/weight gradients. -/
def ConvBackward.applyCore (kernelB : BackwardKernel) (p : ConvParams)
    (req0 req1 req2 : Bool) (input weight : TData) (bias : ATTensor)
    (grad_output : TData) :
    Except ConvError (ATTensor × ATTensor × ATTensor) :=
  if p.is_padding_neg then .error .negativePadding
  else if p.is_output_padding_neg then .error .negativeOutputPadding
  else
    let mask : Bool × Bool × Bool := (req0, req1, req2 && bias.isSome)
    if input.shape.length = 3 then
      match view4d input, view4d weight, view4d grad_output with
      | .ok i4, .ok w4, .ok go4 =>
          let r := convBackwardGroups kernelB p i4 go4 w4 mask
          match view3dOpt r.1, view3dOpt r.2.1 with
          | .ok gi, .ok gw => .ok (gi, gw, r.2.2)
          | .error e, _ => .error e
          | _, .error e => .error e
      | .error e, _, _ => .error e
      | _, .error e, _ => .error e
      | _, _, .error e => .error e
    else .ok (convBackwardGroups kernelB p input grad_output weight mask)

/-- The saved guards of a `ConvBackward` node. -/
structure ConvBackwardSaved where
  input_ : SavedVariable
  weight_ : SavedVariable
  bias_ : SavedVariable
deriving DecidableEq, Repr

/-- `ConvBackward::releaseVariables`: reset the three data references,
touching nothing else. -/
def ConvBackwardSaved.releaseVariables (s : ConvBackwardSaved) :
    ConvBackwardSaved :=
  { input_ := { s.input_ with data := none },
    weight_ := { s.weight_ with data := none },
    bias_ := { s.bias_ with data := none } }

/-- The saved guards of a `ConvBackwardBackward` node. -/
structure ConvBackwardBackwardSaved where
  input_ : SavedVariable
  weight_ : SavedVariable
  bias_ : SavedVariable
  grad_output_ : SavedVariable
deriving DecidableEq, Repr

/-- `ConvBackwardBackward::releaseVariables`: reset the four data
references, touching nothing else. -/
def ConvBackwardBackwardSaved.releaseVariables (s : ConvBackwardBackwardSaved) :
    ConvBackwardBackwardSaved :=
  { input_ := { s.input_ with data := none },
    weight_ := { s.weight_ with data := none },
    bias_ := { s.bias_ with data := none },
    grad_output_ := { s.grad_output_ with data := none } }

/-- Modelled from the spec: the backward engine's per-node step for a
`ConvBackward` node. The engine itself is not under `src/`; per spec
4.3(e)/4.4, the node's `apply` first unpacks its saved guards (as
`ConvBackward::apply` does, with no `saved_for` argument), and after the
single backward invocation the engine releases them via
`releaseVariables()` — unless the graph is explicitly retained, in which
case release is skipped and the graph stays replayable. Each guard's
environment (current version-counter value and weak-reference liveness) is
passed per guard. -/
def convBackwardStep (retain : Bool) (s : ConvBackwardSaved)
    (lvi lvw lvb : Nat) (ai aw ab : Nat → Bool) :
    Except UnpackError (Variable × Variable × Variable × ConvBackwardSaved) :=
  match s.input_.unpack none lvi ai with
  | .error e => .error e
  | .ok iv =>
    match s.weight_.unpack none lvw aw with
    | .error e => .error e
    | .ok wv =>
      match s.bias_.unpack none lvb ab with
      | .error e => .error e
      | .ok bv =>
        .ok (iv, wv, bv, if retain then s else s.releaseVariables)

/- ===== Theorems ===== -/

/-- C2: for every captured value (a guard built from a defined variable),
if the value was mutated in place after capture — the live version counter
no longer matches the version at save — `unpack` fails with the
stale-version error; if no mutation occurred (the live version still equals
the version at capture), and the caller supplies the producing node when
the guard stored none and the leaf's accumulator is still alive, `unpack`
succeeds. -/
theorem C2_stale_version_detection (v : Variable) (is_output : Bool)
    (saved_for : Option Nat) (live_version : Nat) (alive : Nat → Bool)
    (hdef : v.defined = true)
    (hsf : v.is_leaf = false → is_output = true → saved_for.isSome)
    (hacc : v.requires_grad = true → v.is_leaf = true →
      ∃ a, v.grad_accumulator = some a ∧ alive a = true) :
    (live_version ≠ v.current_version →
      (SavedVariable.save v is_output).unpack saved_for live_version alive
        = .error .staleVersion)
    ∧ (live_version = v.current_version →
      ∃ res, (SavedVariable.save v is_output).unpack saved_for live_version alive
        = .ok res) := by
  constructor
  · intro hne
    simp [SavedVariable.save, SavedVariable.unpack, hdef, hne]
  · intro heq
    simp only [SavedVariable.save, hdef, Bool.not_true, Bool.false_eq_true,
      if_false, SavedVariable.unpack, heq, ne_eq, not_true_eq_false,
      SavedVariable.resolveGradFn]
    by_cases hleaf : v.is_leaf = true
    · have hgfn : v.grad_fn = none := by
        simpa [Variable.is_leaf, Option.isNone_iff_eq_none] using hleaf
      by_cases hrg : v.requires_grad = true
      · obtain ⟨a, ha, halive⟩ := hacc hrg hleaf
        simp [hleaf, hgfn, SavedVariable.expired, ha, halive]
      · simp [hleaf, hgfn, SavedVariable.expired, Bool.eq_false_iff.mpr hrg]
    · have hleaf' : v.is_leaf = false := Bool.eq_false_iff.mpr hleaf
      obtain ⟨g, hg⟩ : ∃ g, v.grad_fn = some g := by
        cases h : v.grad_fn with
        | none => simp [Variable.is_leaf, h] at hleaf'
        | some g => exact ⟨g, rfl⟩
      by_cases hio : is_output = true
      · obtain ⟨n, hn⟩ := Option.isSome_iff_exists.mp (hsf hleaf' hio)
        simp [hleaf', hio, hn]
      · simp [hleaf', Bool.eq_false_iff.mpr hio, hg]

/-- Witness for C2: a concrete defined leaf variable (version 3 at capture,
live accumulator), unpacked at live version 4. -/
theorem C2_stale_version_detection_witness :
    ((4 : Nat) ≠ (⟨true, 5, true, 3, 0, none, some 7⟩ : Variable).current_version →
      (SavedVariable.save ⟨true, 5, true, 3, 0, none, some 7⟩ false).unpack
        none 4 (fun _ => true) = .error .staleVersion)
    ∧ ((4 : Nat) = (⟨true, 5, true, 3, 0, none, some 7⟩ : Variable).current_version →
      ∃ res, (SavedVariable.save ⟨true, 5, true, 3, 0, none, some 7⟩ false).unpack
        none 4 (fun _ => true) = .ok res) :=
  C2_stale_version_detection ⟨true, 5, true, 3, 0, none, some 7⟩ false none 4
    (fun _ => true) rfl (by decide) (fun _ _ => ⟨7, rfl, rfl⟩)

/-- C7: a snapshot guard captured with `is_output = true` stores no
producing-node reference; for a guard that expected a producing node but
stored none (the non-leaf output case), `unpack` fails with the
missing-producer error when `saved_for` is absent, and when it is present
the reconstructed value is bound to the supplied node. -/
theorem C7_output_guard_needs_saved_for (v : Variable)
    (sv : SavedVariable) (d lv n : Nat) (alive : Nat → Bool)
    (hdata : sv.data = some d) (hver : lv = sv.expected_version)
    (hhg : sv.has_grad_fn = true) (hgf : sv.grad_fn = none) :
    (SavedVariable.save v true).grad_fn = none
    ∧ sv.unpack none lv alive = .error .missingProducer
    ∧ (∃ var, sv.unpack (some n) lv alive = .ok var ∧ var.grad_fn = some n) := by
  refine ⟨?_, ?_, ?_⟩
  · by_cases hdef : v.defined = true
    · simp [SavedVariable.save, hdef]
    · simp [SavedVariable.save, Bool.eq_false_iff.mpr hdef]
  · simp [SavedVariable.unpack, hdata, hver, SavedVariable.resolveGradFn,
      hhg, hgf]
  · refine ⟨⟨true, d, sv.requires_grad, lv, sv.output_nr, some n,
      sv.grad_accumulator⟩, ?_, rfl⟩
    simp [SavedVariable.unpack, hdata, hver, SavedVariable.resolveGradFn,
      hhg, hgf]

/-- Witness for C7: a concrete guard of a non-leaf output value, unpacked
with and without a supplied node. -/
theorem C7_output_guard_needs_saved_for_witness :
    (SavedVariable.save undefinedVariable true).grad_fn = none
    ∧ (⟨some 2, true, 0, true, true, 1, none, none⟩ : SavedVariable).unpack
        none 0 (fun _ => true) = .error .missingProducer
    ∧ (∃ var, (⟨some 2, true, 0, true, true, 1, none, none⟩ : SavedVariable).unpack
        (some 9) 0 (fun _ => true) = .ok var ∧ var.grad_fn = some 9) :=
  C7_output_guard_needs_saved_for undefinedVariable
    ⟨some 2, true, 0, true, true, 1, none, none⟩ 2 0 9 (fun _ => true)
    rfl rfl rfl rfl

/-- C8: for a guard of a leaf value the grad accumulator is recorded at
capture time, and `unpack` fails with the missing-accumulator error
whenever the reconstructed value is a requires-grad leaf but the recorded
accumulator has expired; when the graph is correctly constructed — the
captured leaf's accumulator is recorded and still alive — the failure does
not occur and `unpack` succeeds. -/
theorem C8_leaf_accumulator_invariant (v : Variable) (io : Bool)
    (sv : SavedVariable) (sf : Option Nat) (d lv : Nat) (alive : Nat → Bool)
    (hdef : v.defined = true) (hleaf : v.is_leaf = true)
    (hdata : sv.data = some d) (hver : lv = sv.expected_version)
    (hhg : sv.has_grad_fn = false) (hgf : sv.grad_fn = none)
    (hrg : sv.requires_grad = true) (hexp : sv.expired alive = true) :
    (SavedVariable.save v io).grad_accumulator = v.grad_accumulator
    ∧ sv.unpack sf lv alive = .error .missingAccumulator
    ∧ (∀ (v2 : Variable) (io2 : Bool) (sf2 : Option Nat) (alive2 : Nat → Bool)
        (a : Nat), v2.defined = true → v2.is_leaf = true →
        v2.grad_accumulator = some a → alive2 a = true →
        ∃ res, (SavedVariable.save v2 io2).unpack sf2 v2.current_version alive2
          = .ok res) := by
  refine ⟨?_, ?_, ?_⟩
  · simp [SavedVariable.save, hdef, hleaf]
  · simp [SavedVariable.unpack, hdata, hver, SavedVariable.resolveGradFn,
      hhg, hgf, hrg, hexp]
  · intro v2 io2 sf2 alive2 a hdef2 hleaf2 ha halive
    have hgfn2 : v2.grad_fn = none := by
      simpa [Variable.is_leaf, Option.isNone_iff_eq_none] using hleaf2
    refine ⟨⟨true, v2.data, v2.requires_grad, v2.current_version, 0, none,
      v2.grad_accumulator⟩, ?_⟩
    simp [SavedVariable.save, SavedVariable.unpack, hdef2, hleaf2, hgfn2,
      SavedVariable.resolveGradFn, SavedVariable.expired, ha, halive]

/-- Witness for C8: a concrete leaf guard whose recorded accumulator is
dead (everything expired), and a live-accumulator leaf for the success
branch. -/
theorem C8_leaf_accumulator_invariant_witness :
    (SavedVariable.save ⟨true, 3, true, 0, 0, none, some 4⟩ false).grad_accumulator
      = (⟨true, 3, true, 0, 0, none, some 4⟩ : Variable).grad_accumulator
    ∧ (⟨some 3, true, 0, true, false, 0, none, some 4⟩ : SavedVariable).unpack
        none 0 (fun _ => false) = .error .missingAccumulator
    ∧ (∀ (v2 : Variable) (io2 : Bool) (sf2 : Option Nat) (alive2 : Nat → Bool)
        (a : Nat), v2.defined = true → v2.is_leaf = true →
        v2.grad_accumulator = some a → alive2 a = true →
        ∃ res, (SavedVariable.save v2 io2).unpack sf2 v2.current_version alive2
          = .ok res) :=
  C8_leaf_accumulator_invariant ⟨true, 3, true, 0, 0, none, some 4⟩ false
    ⟨some 3, true, 0, true, false, 0, none, some 4⟩ none 3 0 (fun _ => false)
    rfl rfl rfl rfl rfl rfl rfl rfl

/-- C10: `releaseVariables` (of `ConvBackward` and `ConvBackwardBackward`)
clears exactly the data references of the node's saved guards and leaves
every other guard field — saved version, requires_grad, output index,
producer, accumulator — unchanged; consequently a released populated guard
still has its saved version, so a later `unpack` raises the backward-twice
error, whereas a never-populated empty guard unpacks silently to the
undefined variable. -/
theorem C10_release_clears_only_data (s : ConvBackwardSaved)
    (s2 : ConvBackwardBackwardSaved) (sf : Option Nat) (lv : Nat)
    (alive : Nat → Bool) (hpop : s.input_.version_defined = true) :
    s.releaseVariables = ⟨{ s.input_ with data := none },
      { s.weight_ with data := none }, { s.bias_ with data := none }⟩
    ∧ s2.releaseVariables = ⟨{ s2.input_ with data := none },
      { s2.weight_ with data := none }, { s2.bias_ with data := none },
      { s2.grad_output_ with data := none }⟩
    ∧ s.releaseVariables.input_.version_defined = s.input_.version_defined
    ∧ s.releaseVariables.input_.expected_version = s.input_.expected_version
    ∧ s.releaseVariables.input_.requires_grad = s.input_.requires_grad
    ∧ s.releaseVariables.input_.output_nr = s.input_.output_nr
    ∧ s.releaseVariables.input_.unpack sf lv alive = .error .reusedAfterRelease
    ∧ ({} : SavedVariable).unpack sf lv alive = .ok undefinedVariable := by
  refine ⟨rfl, rfl, rfl, rfl, rfl, rfl, ?_, rfl⟩
  simp [ConvBackwardSaved.releaseVariables, SavedVariable.unpack, hpop]

/-- Witness for C10 at a concrete `ConvBackward` guard set with a
populated input guard. -/
theorem C10_release_clears_only_data_witness :
    letI s : ConvBackwardSaved :=
      ⟨⟨some 1, true, 2, true, true, 0, some 5, none⟩,
       ⟨some 2, true, 0, true, false, 0, none, some 6⟩, {}⟩
    letI s2 : ConvBackwardBackwardSaved := ⟨{}, {}, {}, {}⟩
    s.releaseVariables = ⟨{ s.input_ with data := none },
      { s.weight_ with data := none }, { s.bias_ with data := none }⟩
    ∧ s2.releaseVariables = ⟨{ s2.input_ with data := none },
      { s2.weight_ with data := none }, { s2.bias_ with data := none },
      { s2.grad_output_ with data := none }⟩
    ∧ s.releaseVariables.input_.version_defined = s.input_.version_defined
    ∧ s.releaseVariables.input_.expected_version = s.input_.expected_version
    ∧ s.releaseVariables.input_.requires_grad = s.input_.requires_grad
    ∧ s.releaseVariables.input_.output_nr = s.input_.output_nr
    ∧ s.releaseVariables.input_.unpack none 2 (fun _ => true)
        = .error .reusedAfterRelease
    ∧ ({} : SavedVariable).unpack none 2 (fun _ => true) = .ok undefinedVariable :=
  C10_release_clears_only_data
    ⟨⟨some 1, true, 2, true, true, 0, some 5, none⟩,
     ⟨some 2, true, 0, true, false, 0, none, some 6⟩, {}⟩
    ⟨{}, {}, {}, {}⟩ none 2 (fun _ => true) rfl

/-- C9: in the non-retained lifecycle a guard is consumed at most once. A
successful non-retained backward step over a `ConvBackward` node leaves
the node released, and then every subsequent step (with any environment
and any retain flag) fails with the backward-twice error rather than
yielding values; `unpack` itself records nothing — in the retained
lifecycle the state is unchanged and a second identical step succeeds with
the same result — so single use is enforced solely through release. -/
theorem C9_single_use_enforced_by_release (s : ConvBackwardSaved)
    (lvi lvw lvb : Nat) (ai aw ab : Nat → Bool)
    (r : Variable × Variable × Variable × ConvBackwardSaved)
    (hpop : s.input_.version_defined = true)
    (hok : convBackwardStep false s lvi lvw lvb ai aw ab = .ok r) :
    r.2.2.2 = s.releaseVariables
    ∧ (∀ (retain2 : Bool) (lvi2 lvw2 lvb2 : Nat) (ai2 aw2 ab2 : Nat → Bool),
        convBackwardStep retain2 r.2.2.2 lvi2 lvw2 lvb2 ai2 aw2 ab2
          = .error .reusedAfterRelease)
    ∧ (∀ (sR : ConvBackwardSaved)
        (rR : Variable × Variable × Variable × ConvBackwardSaved),
        convBackwardStep true sR lvi lvw lvb ai aw ab = .ok rR →
        rR.2.2.2 = sR ∧
        convBackwardStep true rR.2.2.2 lvi lvw lvb ai aw ab = .ok rR) := by
  have hrel : r.2.2.2 = s.releaseVariables := by
    unfold convBackwardStep at hok
    split at hok
    · simp at hok
    · split at hok
      · simp at hok
      · split at hok
        · simp at hok
        · cases hok
          rfl
  refine ⟨hrel, ?_, ?_⟩
  · intro retain2 lvi2 lvw2 lvb2 ai2 aw2 ab2
    rw [hrel]
    simp [convBackwardStep, ConvBackwardSaved.releaseVariables,
      SavedVariable.unpack, hpop]
  · intro sR rR hR
    have hid : rR.2.2.2 = sR := by
      unfold convBackwardStep at hR
      split at hR
      · simp at hR
      · split at hR
        · simp at hR
        · split at hR
          · simp at hR
          · cases hR
            rfl
    exact ⟨hid, by rw [hid]; exact hR⟩

/-- Witness for C9: a concrete node whose three guards (input, weight, and
an empty bias guard) unpack successfully, stepped without retain. -/
theorem C9_single_use_enforced_by_release_witness :
    letI s : ConvBackwardSaved :=
      ⟨⟨some 1, true, 2, true, true, 0, some 5, none⟩,
       ⟨some 2, false, 0, true, false, 0, none, none⟩, {}⟩
    letI r := ((⟨true, 1, true, 2, 0, some 5, none⟩ : Variable),
       (⟨true, 2, false, 0, 0, none, none⟩ : Variable), undefinedVariable,
       s.releaseVariables)
    r.2.2.2 = s.releaseVariables
    ∧ (∀ (retain2 : Bool) (lvi2 lvw2 lvb2 : Nat) (ai2 aw2 ab2 : Nat → Bool),
        convBackwardStep retain2 r.2.2.2 lvi2 lvw2 lvb2 ai2 aw2 ab2
          = .error .reusedAfterRelease)
    ∧ (∀ (sR : ConvBackwardSaved)
        (rR : Variable × Variable × Variable × ConvBackwardSaved),
        convBackwardStep true sR 2 0 0 (fun _ => true) (fun _ => true)
          (fun _ => true) = .ok rR →
        rR.2.2.2 = sR ∧
        convBackwardStep true rR.2.2.2 2 0 0 (fun _ => true) (fun _ => true)
          (fun _ => true) = .ok rR) :=
  C9_single_use_enforced_by_release
    ⟨⟨some 1, true, 2, true, true, 0, some 5, none⟩,
     ⟨some 2, false, 0, true, false, 0, none, none⟩, {}⟩
    2 0 0 (fun _ => true) (fun _ => true) (fun _ => true) _ rfl rfl

/-- Inversion of a successful interpreter `apply`: success implies the
stage bound held and the node was unused, and the post state is the node
itself with exactly the `used_ |= !keep_graph_` update applied. -/
theorem interpApplyOkInversion (run : List TInput → List Nat)
    (f : InterpreterAutogradFunction) (inputs : List Variable)
    (r : InterpApplyResult) (h : f.apply run inputs = .ok r) :
    f.stage_ ≠ f.stage_details_.length ∧ f.used_ = false
    ∧ r.post = { f with used_ := f.used_ || !f.keep_graph_ } := by
  unfold InterpreterAutogradFunction.apply at h
  split at h
  · simp at h
  · split at h
    · simp at h
    · split at h
      · simp at h
      · split at h
        · simp at h
        · split at h
          · simp at h
          · split at h
            · simp at h
            · dsimp only at h
              split at h
              · simp at h
              · cases h
                refine ⟨by simp_all, by simp_all, rfl⟩

/-- C1: a released guard (its node's backward already ran without retain)
fails every subsequent `unpack` with the reused-after-release error, whose
message is the load-bearing backward-twice text; likewise the staged
interpreter's `apply`, once the node is marked used, fails with the
backward-twice error carrying the same text — and a successful apply on a
non-retaining node does mark it used, so the second invocation fails. -/
theorem C1_backward_twice_always_fails (sv : SavedVariable)
    (hpop : sv.version_defined = true) (sf : Option Nat) (lv : Nat)
    (alive : Nat → Bool) (run : List TInput → List Nat)
    (f : InterpreterAutogradFunction) (inputs : List Variable)
    (hstage : f.stage_ ≠ f.stage_details_.length) (hused : f.used_ = true)
    (f2 : InterpreterAutogradFunction) (inputs2 : List Variable)
    (r2 : InterpApplyResult) (hkg : f2.keep_graph_ = false)
    (hap : f2.apply run inputs2 = .ok r2) :
    ({ sv with data := none } : SavedVariable).unpack sf lv alive
      = .error .reusedAfterRelease
    ∧ UnpackError.reusedAfterRelease.message = ERR_BACKWARD_TWICE
    ∧ f.apply run inputs = .error .backwardTwice
    ∧ InterpError.backwardTwice.message = ERR_BACKWARD_TWICE
    ∧ r2.post.used_ = true
    ∧ r2.post.apply run inputs2 = .error .backwardTwice := by
  obtain ⟨hstage2, hused2, hpost⟩ := interpApplyOkInversion run f2 inputs2 r2 hap
  refine ⟨?_, rfl, ?_, rfl, ?_, ?_⟩
  · simp [SavedVariable.unpack, hpop]
  · simp [InterpreterAutogradFunction.apply, hstage, hused]
  · rw [hpost]
    simp [hused2, hkg]
  · rw [hpost]
    simp [InterpreterAutogradFunction.apply, hstage2, hused2, hkg]

/-- Witness for C1: a concrete released guard, a concrete used interpreter
node, and a concrete fresh non-retaining node whose apply succeeds. -/
theorem C1_backward_twice_always_fails_witness :
    letI sv : SavedVariable := ⟨some 1, false, 0, true, false, 0, none, none⟩
    letI f : InterpreterAutogradFunction := ⟨0, [⟨[], [], [], []⟩], false, true, 0, [], []⟩
    letI f2 : InterpreterAutogradFunction := ⟨0, [⟨[], [], [], []⟩], false, false, 0, [], []⟩
    letI r2 : InterpApplyResult :=
      ⟨[], [], none, ⟨0, [⟨[], [], [], []⟩], false, true, 0, [], []⟩⟩
    ({ sv with data := none } : SavedVariable).unpack none 0 (fun _ => true)
      = .error .reusedAfterRelease
    ∧ UnpackError.reusedAfterRelease.message = ERR_BACKWARD_TWICE
    ∧ f.apply (fun _ => []) [] = .error .backwardTwice
    ∧ InterpError.backwardTwice.message = ERR_BACKWARD_TWICE
    ∧ r2.post.used_ = true
    ∧ r2.post.apply (fun _ => []) [] = .error .backwardTwice :=
  C1_backward_twice_always_fails
    ⟨some 1, false, 0, true, false, 0, none, none⟩ rfl none 0 (fun _ => true)
    (fun _ => []) ⟨0, [⟨[], [], [], []⟩], false, true, 0, [], []⟩ []
    (by decide) rfl ⟨0, [⟨[], [], [], []⟩], false, false, 0, [], []⟩ []
    ⟨[], [], none, ⟨0, [⟨[], [], [], []⟩], false, true, 0, [], []⟩⟩ rfl rfl

/-- C4: at the last compiled stage, constructing the next-stage node
succeeds without error — the node carries stage index `stage_ + 1` and is
left unwired — and the compiled-derivative-limit error is raised only if
and when `apply` is later invoked on that node (whose stage index then
equals the number of compiled stages); any node still within the compiled
stages with valid inputs applies successfully, so N requested derivatives
allow the compiled invocations and the first out-of-range one fails. -/
theorem C4_deferred_derivative_limit (f : InterpreterAutogradFunction)
    (details : StageDetails) (inputs inputs2 : List Variable)
    (run : List TInput → List Nat)
    (hlast : f.stage_ + 1 = f.stage_details_.length)
    (g : InterpreterAutogradFunction) (ginputs : List Variable)
    (tins : List TInput) (gdetails : StageDetails)
    (hgstage : g.stage_ ≠ g.stage_details_.length)
    (hgused : g.used_ = false)
    (hgd : g.stage_details_.get? g.stage_ = some gdetails)
    (hga1 : ginputs.length = g.num_inputs)
    (hga2 : ginputs.length = gdetails.input_flags.length)
    (hval : validateInputs gdetails.input_flags g.input_types ginputs = .ok tins)
    (hout : (run tins).length = gdetails.output_flags.length) :
    (f.makeGradFn details inputs).stage_ = f.stage_ + 1
    ∧ (f.makeGradFn details inputs).next_functions = []
    ∧ (f.makeGradFn details inputs).apply run inputs2
        = .error (.tooFewDerivatives (f.stage_details_.length - 1))
    ∧ (∃ r, g.apply run ginputs = .ok r) := by
  refine ⟨?_, ?_, ?_, ?_⟩
  · simp [InterpreterAutogradFunction.makeGradFn, hlast,
      InterpreterAutogradFunction.mkNextStage]
  · simp [InterpreterAutogradFunction.makeGradFn, hlast,
      InterpreterAutogradFunction.mkNextStage]
  · simp [InterpreterAutogradFunction.makeGradFn, hlast,
      InterpreterAutogradFunction.mkNextStage,
      InterpreterAutogradFunction.apply]
  · have hgd' : g.stage_details_[g.stage_]? = some gdetails := by
      rw [← List.get?_eq_getElem?]
      exact hgd
    have hga3 : g.num_inputs = gdetails.input_flags.length := by omega
    simp [InterpreterAutogradFunction.apply, hgstage, hgused, hgd', hga1,
      hga2, hga3, hval, hout]

/-- Witness for C4: a one-stage program (`nderivs = 0`): building the
stage-1 node succeeds unwired, applying it fails with the derivative
limit, while applying the in-range stage-0 node succeeds. -/
theorem C4_deferred_derivative_limit_witness :
    letI f : InterpreterAutogradFunction :=
      ⟨0, [⟨[], [], [], []⟩], false, false, 0, [], []⟩
    (f.makeGradFn ⟨[], [], [], []⟩ []).stage_ = f.stage_ + 1
    ∧ (f.makeGradFn ⟨[], [], [], []⟩ []).next_functions = []
    ∧ (f.makeGradFn ⟨[], [], [], []⟩ []).apply (fun _ => []) []
        = .error (.tooFewDerivatives (f.stage_details_.length - 1))
    ∧ (∃ r, InterpreterAutogradFunction.apply (fun _ => [])
        ⟨0, [⟨[], [], [], []⟩], true, false, 0, [], []⟩ [] = .ok r) :=
  C4_deferred_derivative_limit
    ⟨0, [⟨[], [], [], []⟩], false, false, 0, [], []⟩ ⟨[], [], [], []⟩ [] []
    (fun _ => []) rfl
    ⟨0, [⟨[], [], [], []⟩], true, false, 0, [], []⟩ [] [] ⟨[], [], [], []⟩
    (by decide) rfl rfl rfl rfl rfl rfl

/-- C5: the staged interpreter's per-input validation: a defined live
input against a stage compiled with that input undefined, or a
grad-requiring live input against a stage compiled without grad, is a
stage mismatch error; an undefined live input where the stage expects a
defined one is replaced by a zero tensor of the traced shape; an undefined
input the trace also saw undefined stays undefined; otherwise the live
data is passed through unchanged — and a validation outcome propagates to
`apply` verbatim. -/
theorem C5_input_validation_contract (t a : VariableFlags)
    (shape : List Nat) (d : Nat)
    (f : InterpreterAutogradFunction) (run : List TInput → List Nat)
    (inputs : List Variable) (details : StageDetails) (e : InterpError)
    (tins : List TInput)
    (hstage : f.stage_ ≠ f.stage_details_.length) (hused : f.used_ = false)
    (hdet : f.stage_details_.get? f.stage_ = some details)
    (ha1 : inputs.length = f.num_inputs)
    (ha2 : inputs.length = details.input_flags.length) :
    (t.defined = false → a.defined = true →
      validateOne t a shape d = .error .stageMismatchDefined)
    ∧ (t.defined = true → t.requires_grad = false → a.requires_grad = true →
      validateOne t a shape d = .error .stageMismatchRequiresGrad)
    ∧ (t.defined = true → a.defined = false →
        (t.requires_grad = true ∨ a.requires_grad = false) →
      validateOne t a shape d = .ok (.zeros shape))
    ∧ (t.defined = false → a.defined = false →
        (t.requires_grad = true ∨ a.requires_grad = false) →
      validateOne t a shape d = .ok .undef)
    ∧ (t.defined = true → a.defined = true →
        (t.requires_grad = true ∨ a.requires_grad = false) →
      validateOne t a shape d = .ok (.tdata d))
    ∧ (validateInputs details.input_flags f.input_types inputs = .error e →
      f.apply run inputs = .error e)
    ∧ (validateInputs details.input_flags f.input_types inputs = .ok tins →
      (run tins).length = details.output_flags.length →
      ∃ r, f.apply run inputs = .ok r ∧ r.tinputs = tins) := by
  refine ⟨?_, ?_, ?_, ?_, ?_, ?_, ?_⟩
  · intro h1 h2
    simp [validateOne, h1, h2]
  · intro h1 h2 h3
    simp [validateOne, h1, h2, h3]
  · intro h1 h2 h3
    rcases h3 with h3 | h3 <;> simp [validateOne, h1, h2, h3]
  · intro h1 h2 h3
    rcases h3 with h3 | h3 <;> simp [validateOne, h1, h2, h3]
  · intro h1 h2 h3
    rcases h3 with h3 | h3 <;> simp [validateOne, h1, h2, h3]
  · intro hverr
    have hdet' : f.stage_details_[f.stage_]? = some details := by
      rw [← List.get?_eq_getElem?]
      exact hdet
    have ha3 : f.num_inputs = details.input_flags.length := by omega
    simp [InterpreterAutogradFunction.apply, hstage, hused, hdet', ha1, ha2,
      ha3, hverr]
  · intro hvok hout
    have hdet' : f.stage_details_[f.stage_]? = some details := by
      rw [← List.get?_eq_getElem?]
      exact hdet
    have ha3 : f.num_inputs = details.input_flags.length := by omega
    simp [InterpreterAutogradFunction.apply, hstage, hused, hdet', ha1, ha2,
      ha3, hvok, hout]

/-- Witness for C5: a stage compiled with its single input undefined,
applied to a defined live input — validation and `apply` both fail with
the defined-input stage mismatch. -/
theorem C5_input_validation_contract_witness :
    letI t : VariableFlags := ⟨false, false⟩
    letI a : VariableFlags := ⟨true, false⟩
    letI details : StageDetails := ⟨[⟨false, false⟩], [], [true], []⟩
    letI f : InterpreterAutogradFunction :=
      ⟨0, [⟨[⟨false, false⟩], [], [true], []⟩], false, false, 1, [], [[2]]⟩
    (t.defined = false → a.defined = true →
      validateOne t a [2] 7 = .error .stageMismatchDefined)
    ∧ (t.defined = true → t.requires_grad = false → a.requires_grad = true →
      validateOne t a [2] 7 = .error .stageMismatchRequiresGrad)
    ∧ (t.defined = true → a.defined = false →
        (t.requires_grad = true ∨ a.requires_grad = false) →
      validateOne t a [2] 7 = .ok (.zeros [2]))
    ∧ (t.defined = false → a.defined = false →
        (t.requires_grad = true ∨ a.requires_grad = false) →
      validateOne t a [2] 7 = .ok .undef)
    ∧ (t.defined = true → a.defined = true →
        (t.requires_grad = true ∨ a.requires_grad = false) →
      validateOne t a [2] 7 = .ok (.tdata 7))
    ∧ (validateInputs details.input_flags f.input_types
        [⟨true, 7, false, 0, 0, none, none⟩] = .error .stageMismatchDefined →
      f.apply (fun _ => []) [⟨true, 7, false, 0, 0, none, none⟩]
        = .error .stageMismatchDefined)
    ∧ (validateInputs details.input_flags f.input_types
        [⟨true, 7, false, 0, 0, none, none⟩] = .ok [] →
      ((fun _ => ([] : List Nat)) ([] : List TInput)).length
        = details.output_flags.length →
      ∃ r, f.apply (fun _ => []) [⟨true, 7, false, 0, 0, none, none⟩]
        = .ok r ∧ r.tinputs = []) :=
  C5_input_validation_contract ⟨false, false⟩ ⟨true, false⟩ [2] 7
    ⟨0, [⟨[⟨false, false⟩], [], [true], []⟩], false, false, 1, [], [[2]]⟩
    (fun _ => []) [⟨true, 7, false, 0, 0, none, none⟩]
    ⟨[⟨false, false⟩], [], [true], []⟩ .stageMismatchDefined []
    (by decide) rfl rfl rfl rfl

/-- `getD` after `set` at the written index. -/
theorem listGetD_set_self {α : Type} : ∀ (l : List α) (n : Nat) (a d : α),
    n < l.length → (l.set n a).getD n d = a
  | _ :: _, 0, _, _, _ => rfl
  | _ :: xs, n + 1, a, d, h => listGetD_set_self xs n a d (by simpa using h)

/-- `getD` after `set` at a different index. -/
theorem listGetD_set_ne {α : Type} : ∀ (l : List α) (m n : Nat) (a d : α),
    m ≠ n → (l.set m a).getD n d = l.getD n d
  | [], _, _, _, _, _ => rfl
  | _ :: _, 0, 0, _, _, h => absurd rfl h
  | _ :: _, 0, _ + 1, _, _, _ => rfl
  | _ :: _, _ + 1, 0, _, _, _ => rfl
  | _ :: xs, m + 1, n + 1, a, d, h =>
      listGetD_set_ne xs m n a d (fun hc => h (by rw [hc]))

/-- A group slice keeps the tensor's rank. -/
theorem length_subtensorT (t : TData) (dim groups g : Nat) :
    (t.subtensorT dim groups g).shape.length = t.shape.length := by
  simp [TData.subtensorT, TData.narrow]

/-- A group slice divides the size of the sliced dimension. -/
theorem sizeAt_subtensorT (t : TData) (dim groups g : Nat)
    (h : dim < t.shape.length) :
    (t.subtensorT dim groups g).sizeAt dim = t.sizeAt dim / groups := by
  simp only [TData.subtensorT, TData.narrow, TData.sizeAt]
  exact listGetD_set_self _ _ _ _ h

/-- A group slice leaves the other dimensions' sizes unchanged. -/
theorem sizeAt_subtensorT_ne (t : TData) (dim groups g d2 : Nat)
    (h : dim ≠ d2) :
    (t.subtensorT dim groups g).sizeAt d2 = t.sizeAt d2 := by
  simp only [TData.subtensorT, TData.narrow, TData.sizeAt]
  exact listGetD_set_ne _ _ _ _ _ h

/-- C3: grouped convolution with `g > 1` computes each group independently
on the g-th channel slice of input/weight/bias (and grad_output) and
concatenates the per-group results in group order along the grouping
dimension — dim 1 for the forward output and the input gradient, dim 0 for
the weight and bias gradients — where each per-group computation equals
the single-group (`groups = 1`) apply on the sliced tensors; a group count
of 1 bypasses the fan-out entirely, calling the kernel once on the whole
tensors. -/
theorem C3_grouped_convolution_refinement (kernelF : ForwardKernel)
    (kernelB : BackwardKernel) (p : ConvParams) (input weight : TData)
    (bias : ATTensor) (grad_output : TData) (req0 req1 req2 : Bool)
    (hpad : p.is_padding_neg = false) (hopad : p.is_output_padding_neg = false)
    (htr : p.transposed = false)
    (hk : input.shape.length = 4) (hkw : weight.shape.length = 4)
    (hwg : p.groups ≤ weight.sizeAt 0)
    (hch : input.sizeAt 1 = weight.sizeAt 1 * p.groups)
    (hbias : ∀ b, bias = some b → b.shape.length = 1 ∧ b.sizeAt 0 = weight.sizeAt 0)
    (hg : 1 ≤ p.groups) :
    (p.groups = 1 →
      ConvForward.applyCore kernelF p input weight bias
        = .ok (some (compute_output kernelF p input weight bias))
      ∧ ConvBackward.applyCore kernelB p req0 req1 req2 input weight bias
          grad_output
        = .ok (compute_backward kernelB p input grad_output weight
            (req0, req1, req2 && bias.isSome)))
    ∧ (p.groups ≠ 1 →
      ConvForward.applyCore kernelF p input weight bias
        = .ok (cat ((List.range p.groups).map (fun g =>
            compute_output kernelF p (input.subtensorT 1 p.groups g)
              (weight.subtensorT 0 p.groups g)
              (subtensor bias 0 p.groups g))) 1)
      ∧ ConvBackward.applyCore kernelB p req0 req1 req2 input weight bias
          grad_output
        = .ok
          ((if req0 then
              catOpt (((List.range p.groups).map (fun g =>
                compute_backward kernelB p (input.subtensorT 1 p.groups g)
                  (grad_output.subtensorT 1 p.groups g)
                  (weight.subtensorT 0 p.groups g)
                  (req0, req1, req2 && bias.isSome))).map
                (fun t => t.1)) 1
            else none),
           (if req1 then
              catOpt (((List.range p.groups).map (fun g =>
                compute_backward kernelB p (input.subtensorT 1 p.groups g)
                  (grad_output.subtensorT 1 p.groups g)
                  (weight.subtensorT 0 p.groups g)
                  (req0, req1, req2 && bias.isSome))).map
                (fun t => t.2.1)) 0
            else none),
           (if req2 && bias.isSome then
              catOpt (((List.range p.groups).map (fun g =>
                compute_backward kernelB p (input.subtensorT 1 p.groups g)
                  (grad_output.subtensorT 1 p.groups g)
                  (weight.subtensorT 0 p.groups g)
                  (req0, req1, req2 && bias.isSome))).map
                (fun t => t.2.2)) 0
            else none)))
    ∧ (∀ g, g < p.groups →
      ConvForward.applyCore kernelF { p with groups := 1 }
          (input.subtensorT 1 p.groups g) (weight.subtensorT 0 p.groups g)
          (subtensor bias 0 p.groups g)
        = .ok (some (compute_output kernelF p (input.subtensorT 1 p.groups g)
            (weight.subtensorT 0 p.groups g) (subtensor bias 0 p.groups g)))
      ∧ ConvBackward.applyCore kernelB { p with groups := 1 } req0 req1 req2
          (input.subtensorT 1 p.groups g) (weight.subtensorT 0 p.groups g)
          (subtensor bias 0 p.groups g) (grad_output.subtensorT 1 p.groups g)
        = .ok (compute_backward kernelB p (input.subtensorT 1 p.groups g)
            (grad_output.subtensorT 1 p.groups g)
            (weight.subtensorT 0 p.groups g)
            (req0, req1, req2 && bias.isSome))) := by
  have hg0 : 0 < p.groups := hg
  have hcheck : check_input_shape_forward input weight bias p.groups
      p.transposed = none := by
    rw [htr]
    cases bias with
    | none =>
        simp [check_input_shape_forward, hkw, hk, hch, Nat.not_lt.mpr hwg]
    | some b =>
        obtain ⟨hb1, hb0⟩ := hbias b rfl
        simp [check_input_shape_forward, hkw, hk, hch, Nat.not_lt.mpr hwg,
          hb1, hb0]
  have hfwd : ConvForward.applyCore kernelF p input weight bias
      = .ok (convForwardGroups kernelF p input weight bias) := by
    simp [ConvForward.applyCore, hpad, hopad, hcheck, hk]
  have hbwd : ConvBackward.applyCore kernelB p req0 req1 req2 input weight
      bias grad_output
      = .ok (convBackwardGroups kernelB p input grad_output weight
          (req0, req1, req2 && bias.isSome)) := by
    simp [ConvBackward.applyCore, hpad, hopad, hk]
  refine ⟨?_, ?_, ?_⟩
  · intro h1
    constructor
    · rw [hfwd]
      simp [convForwardGroups, h1]
    · rw [hbwd]
      simp [convBackwardGroups, h1]
  · intro hne
    constructor
    · rw [hfwd]
      simp [convForwardGroups, hne]
    · rw [hbwd]
      simp [convBackwardGroups, hne]
  · intro g _
    have hleni : (input.subtensorT 1 p.groups g).shape.length = 4 := by
      rw [length_subtensorT, hk]
    have hlenw : (weight.subtensorT 0 p.groups g).shape.length = 4 := by
      rw [length_subtensorT, hkw]
    have hs1 : (input.subtensorT 1 p.groups g).sizeAt 1
        = weight.sizeAt 1 := by
      rw [sizeAt_subtensorT input 1 p.groups g (by omega), hch,
        Nat.mul_div_cancel _ hg0]
    have hs2 : (weight.subtensorT 0 p.groups g).sizeAt 0
        = weight.sizeAt 0 / p.groups := by
      rw [sizeAt_subtensorT weight 0 p.groups g (by omega)]
    have hs3 : (weight.subtensorT 0 p.groups g).sizeAt 1
        = weight.sizeAt 1 := by
      rw [sizeAt_subtensorT_ne weight 0 p.groups g 1 (by omega)]
    have hwpos : 1 ≤ weight.sizeAt 0 / p.groups :=
      (Nat.one_le_div_iff hg0).mpr hwg
    have hcheck_g : check_input_shape_forward (input.subtensorT 1 p.groups g)
        (weight.subtensorT 0 p.groups g) (subtensor bias 0 p.groups g) 1
        p.transposed = none := by
      rw [htr]
      cases bias with
      | none =>
          simp [check_input_shape_forward, subtensor, hleni, hlenw, hs1, hs2,
            hs3, Nat.not_lt.mpr hwpos]
      | some b =>
          obtain ⟨hb1, hb0⟩ := hbias b rfl
          have hbl : ((b.subtensorT 0 p.groups g)).shape.length = 1 := by
            rw [length_subtensorT, hb1]
          have hbs : (b.subtensorT 0 p.groups g).sizeAt 0
              = weight.sizeAt 0 / p.groups := by
            rw [sizeAt_subtensorT b 0 p.groups g (by omega), hb0]
          simp [check_input_shape_forward, subtensor, hleni, hlenw, hs1, hs2,
            hs3, Nat.not_lt.mpr hwpos, hbl, hbs]
    constructor
    · have hpad1 : ({ p with groups := 1 } : ConvParams).is_padding_neg
          = false := hpad
      have hopad1 : ({ p with groups := 1 } : ConvParams).is_output_padding_neg
          = false := hopad
      simp [ConvForward.applyCore, hpad1, hopad1, hcheck_g, hleni,
        convForwardGroups, compute_output, ConvParams.kargs]
    · have hpad1 : ({ p with groups := 1 } : ConvParams).is_padding_neg
          = false := hpad
      have hopad1 : ({ p with groups := 1 } : ConvParams).is_output_padding_neg
          = false := hopad
      have hsome : (subtensor bias 0 p.groups g).isSome = bias.isSome := by
        cases bias <;> simp [subtensor]
      simp [ConvBackward.applyCore, hpad1, hopad1, hleni, convBackwardGroups,
        compute_backward, ConvParams.kargs, hsome]

/-- Witness for C3: a concrete groups-2 convolution — input (1,4,2,2),
weight (4,2,1,1), bias of 4 — checking the grouped fan-out equation and
the per-group/single-group agreement at group 0. -/
theorem C3_grouped_convolution_refinement_witness :
    letI p : ConvParams := ⟨[1, 1], [0, 0], [1, 1], false, [0, 0], 2⟩
    letI input : TData := ⟨[1, 4, 2, 2], List.replicate 16 1⟩
    letI weight : TData := ⟨[4, 2, 1, 1], List.replicate 8 1⟩
    letI bias : ATTensor := some ⟨[4], [1, 1, 1, 1]⟩
    letI kernelF : ForwardKernel := fun _ i _ _ => i
    ConvForward.applyCore kernelF p input weight bias
      = .ok (cat ((List.range p.groups).map (fun g =>
          compute_output kernelF p (input.subtensorT 1 p.groups g)
            (weight.subtensorT 0 p.groups g)
            (subtensor bias 0 p.groups g))) 1)
    ∧ ConvForward.applyCore kernelF { p with groups := 1 }
        (input.subtensorT 1 p.groups 0) (weight.subtensorT 0 p.groups 0)
        (subtensor bias 0 p.groups 0)
      = .ok (some (compute_output kernelF p (input.subtensorT 1 p.groups 0)
          (weight.subtensorT 0 p.groups 0)
          (subtensor bias 0 p.groups 0))) := by
  refine ⟨((C3_grouped_convolution_refinement (fun _ i _ _ => i)
      (fun _ _ _ _ _ => (none, none, none))
      ⟨[1, 1], [0, 0], [1, 1], false, [0, 0], 2⟩
      ⟨[1, 4, 2, 2], List.replicate 16 1⟩ ⟨[4, 2, 1, 1], List.replicate 8 1⟩
      (some ⟨[4], [1, 1, 1, 1]⟩) ⟨[1, 4, 2, 2], List.replicate 16 1⟩
      true true true (by decide) (by decide) rfl rfl rfl (by decide)
      (by decide) (fun b hb => by cases hb; exact ⟨rfl, rfl⟩)
      (by decide)).2.1 (by decide)).1,
    ((C3_grouped_convolution_refinement (fun _ i _ _ => i)
      (fun _ _ _ _ _ => (none, none, none))
      ⟨[1, 1], [0, 0], [1, 1], false, [0, 0], 2⟩
      ⟨[1, 4, 2, 2], List.replicate 16 1⟩ ⟨[4, 2, 1, 1], List.replicate 8 1⟩
      (some ⟨[4], [1, 1, 1, 1]⟩) ⟨[1, 4, 2, 2], List.replicate 16 1⟩
      true true true (by decide) (by decide) rfl rfl rfl (by decide)
      (by decide) (fun b hb => by cases hb; exact ⟨rfl, rfl⟩)
      (by decide)).2.2 0 (by decide)).1⟩

/-- C6: in `ConvBackward::apply`, the effective output mask is the
caller's three requested bits with the bias slot additionally requiring
the saved bias to be defined — an undefined bias forces the effective bias
bit false regardless of the request — and any output whose effective mask
bit is false is never produced (for a mask-honoring numeric kernel, and
unconditionally in the grouped path's gating). -/
theorem C6_effective_output_mask (kernelB : BackwardKernel) (p : ConvParams)
    (req0 req1 req2 : Bool) (input weight grad_output : TData)
    (bias : ATTensor)
    (hpad : p.is_padding_neg = false) (hopad : p.is_output_padding_neg = false)
    (hk : input.shape.length = 4)
    (hc : ∀ ka i go w m, ((m.1 = false → (kernelB ka i go w m).1 = none)
        ∧ ((m.2.1 : Bool) = false → (kernelB ka i go w m).2.1 = none)
        ∧ ((m.2.2 : Bool) = false → (kernelB ka i go w m).2.2 = none))) :
    ConvBackward.applyCore kernelB p req0 req1 req2 input weight bias
        grad_output
      = .ok (convBackwardGroups kernelB p input grad_output weight
          (req0, req1, req2 && bias.isSome))
    ∧ (bias = none →
        (convBackwardGroups kernelB p input grad_output weight
          (req0, req1, req2 && bias.isSome)).2.2 = none)
    ∧ (req0 = false →
        (convBackwardGroups kernelB p input grad_output weight
          (req0, req1, req2 && bias.isSome)).1 = none)
    ∧ (req1 = false →
        (convBackwardGroups kernelB p input grad_output weight
          (req0, req1, req2 && bias.isSome)).2.1 = none)
    ∧ ((req2 && bias.isSome) = false →
        (convBackwardGroups kernelB p input grad_output weight
          (req0, req1, req2 && bias.isSome)).2.2 = none) := by
  have hslot : ∀ (m : Bool × Bool × Bool),
      ((m.1 = false →
        (convBackwardGroups kernelB p input grad_output weight m).1 = none)
      ∧ ((m.2.1 : Bool) = false →
        (convBackwardGroups kernelB p input grad_output weight m).2.1 = none)
      ∧ ((m.2.2 : Bool) = false →
        (convBackwardGroups kernelB p input grad_output weight m).2.2
          = none)) := by
    intro m
    by_cases hg1 : p.groups = 1
    · simpa [convBackwardGroups, hg1, compute_backward]
        using hc p.kargs input grad_output weight m
    · refine ⟨?_, ?_, ?_⟩ <;> intro hm <;> simp [convBackwardGroups, hg1, hm]
  refine ⟨?_, ?_, ?_, ?_, ?_⟩
  · simp [ConvBackward.applyCore, hpad, hopad, hk]
  · intro hb
    exact (hslot _).2.2 (by simp [hb])
  · intro h0
    exact (hslot _).1 h0
  · intro h1
    exact (hslot _).2.1 h1
  · intro h2
    exact (hslot _).2.2 h2

/-- Witness for C6: a concrete single-group backward with undefined bias
and a mask-honoring kernel; the bias gradient is suppressed even though
requested. -/
theorem C6_effective_output_mask_witness :
    letI kernelB : BackwardKernel := fun _ i go w m =>
      ((if m.1 then some i else none), (if m.2.1 then some w else none),
       (if m.2.2 then some go else none))
    letI p : ConvParams := ⟨[1, 1], [0, 0], [1, 1], false, [0, 0], 1⟩
    letI input : TData := ⟨[1, 2, 2, 2], List.replicate 8 1⟩
    letI weight : TData := ⟨[2, 2, 1, 1], List.replicate 4 1⟩
    letI grad_output : TData := ⟨[1, 2, 2, 2], List.replicate 8 2⟩
    ConvBackward.applyCore kernelB p true false true input weight none
        grad_output
      = .ok (convBackwardGroups kernelB p input grad_output weight
          (true, false, true && (none : ATTensor).isSome))
    ∧ ((none : ATTensor) = none →
        (convBackwardGroups kernelB p input grad_output weight
          (true, false, true && (none : ATTensor).isSome)).2.2 = none)
    ∧ (true = false →
        (convBackwardGroups kernelB p input grad_output weight
          (true, false, true && (none : ATTensor).isSome)).1 = none)
    ∧ (false = false →
        (convBackwardGroups kernelB p input grad_output weight
          (true, false, true && (none : ATTensor).isSome)).2.1 = none)
    ∧ ((true && (none : ATTensor).isSome) = false →
        (convBackwardGroups kernelB p input grad_output weight
          (true, false, true && (none : ATTensor).isSome)).2.2 = none) :=
  C6_effective_output_mask
    (fun _ i go w m =>
      ((if m.1 then some i else none), (if m.2.1 then some w else none),
       (if m.2.2 then some go else none)))
    ⟨[1, 1], [0, 0], [1, 1], false, [0, 0], 1⟩ true false true
    ⟨[1, 2, 2, 2], List.replicate 8 1⟩ ⟨[2, 2, 1, 1], List.replicate 4 1⟩
    ⟨[1, 2, 2, 2], List.replicate 8 2⟩ none (by decide) (by decide) rfl
    (fun ka i go w m => by
      refine ⟨?_, ?_, ?_⟩ <;> intro hm <;> simp [hm])

end Torch
